import Mathlib

/-!
Verification development for the CapitalSpring document-processing pipeline.

The definitions below are a shallow embedding of the core pipeline code:
`app/services/validation.py` (rule-based validation engine),
`app/services/processor.py` (extraction orchestration and document lifecycle),
and the enum/data declarations of `app/models/document.py` and
`app/models/exception.py`.  Machine behaviour that lives in the Python
runtime rather than in the repository (JSON scalar values, the semantics of
`eval` on the expression subset used by cross-field rules, `str()` rendering,
`datetime.strptime`/`datetime.now()` arithmetic) is modelled explicitly, with
a doc comment marking each such definition.  Effects are made explicit:
`datetime.now()` becomes an integer day-number parameter, database writes
become returned values.
-/

namespace CapitalSpring

/-! ## Enumerations (app/models/document.py, app/models/exception.py) -/

/-- Enum `DocumentStatus` from `app/models/document.py`. -/
inductive DocumentStatus
  | PENDING
  | PROCESSING
  | PROCESSED
  | NEEDS_REVIEW
  | FAILED
  deriving DecidableEq, Repr

/-- Enum `DocumentType` from `app/models/document.py` (all members). -/
inductive DocumentType
  | MONTHLY_FINANCIALS
  | QUARTERLY_FINANCIALS
  | ANNUAL_FINANCIALS
  | MANAGEMENT_ACCOUNTS
  | BOARD_DECK
  | COVENANT_COMPLIANCE
  | COVENANT_CALCULATIONS
  | CURE_NOTICE
  | BORROWING_BASE
  | AR_AGING
  | INVENTORY_REPORT
  | CONCENTRATION_REPORT
  | CAPITAL_CALL
  | DISTRIBUTION_NOTICE
  | NAV_STATEMENT
  | INVESTOR_STATEMENT
  | FEE_CALCULATION
  | AMENDMENT
  | WAIVER_REQUEST
  | UCC_FILING
  | INSURANCE_CERTIFICATE
  | ORGANIZATIONAL_DOC
  | THIRD_PARTY_VALUATION
  | COLLATERAL_APPRAISAL
  | MARK_TO_MARKET
  | BANK_STATEMENT
  | LOCKBOX_REPORT
  | WIRE_CONFIRMATION
  | INVOICE
  | OTHER
  | UNKNOWN
  deriving DecidableEq, Repr

/-- Enum `ProcessorType` from `app/models/document.py`. -/
inductive ProcessorType
  | DOCUMENT_AI_INVOICE
  | DOCUMENT_AI_FORM
  | DOCUMENT_AI_OCR
  | DOCUMENT_AI_CUSTOM
  | CLAUDE
  | MANUAL
  deriving DecidableEq, Repr

/-- Enum `ExceptionCategory` from `app/models/exception.py`. -/
inductive ExceptionCategory
  | VALIDATION_ERROR
  | EXTRACTION_ERROR
  | LOW_CONFIDENCE
  | MISSING_FIELD
  | INVALID_FORMAT
  | BUSINESS_RULE
  | CROSS_FIELD
  | UNKNOWN_DOC_TYPE
  | PROCESSING_FAILURE
  | OTHER
  deriving DecidableEq, Repr

/-- The `.value` string of an `ExceptionCategory` member. -/
def ExceptionCategory.value : ExceptionCategory → String
  | .VALIDATION_ERROR => "validation_error"
  | .EXTRACTION_ERROR => "extraction_error"
  | .LOW_CONFIDENCE => "low_confidence"
  | .MISSING_FIELD => "missing_field"
  | .INVALID_FORMAT => "invalid_format"
  | .BUSINESS_RULE => "business_rule"
  | .CROSS_FIELD => "cross_field"
  | .UNKNOWN_DOC_TYPE => "unknown_doc_type"
  | .PROCESSING_FAILURE => "processing_failure"
  | .OTHER => "other"

/-- Enum `ExceptionPriority` from `app/models/exception.py`. -/
inductive ExceptionPriority
  | LOW
  | MEDIUM
  | HIGH
  | CRITICAL
  deriving DecidableEq, Repr

/-- The `.value` string of an `ExceptionPriority` member. -/
def ExceptionPriority.value : ExceptionPriority → String
  | .LOW => "low"
  | .MEDIUM => "medium"
  | .HIGH => "high"
  | .CRITICAL => "critical"

/-! ## Python scalar values

`extracted_data` is a JSON object, so its values are Python ints, floats,
strings, booleans or `None`.  Cross-field evaluation can additionally
produce function objects: the three helpers installed by
`_apply_cross_field_rule` and bound methods obtained by attribute access
inside `eval`.  These are modelled as extra constructors. -/

/-- The three helper functions installed into the `eval` context by
`ValidationService._apply_cross_field_rule` (`abs`, `min`, `max`). -/
inductive BuiltinFn
  | abs
  | min
  | max
  deriving DecidableEq, Repr

/-- A Python runtime value, as reachable in `extracted_data` (JSON scalars)
or during cross-field `eval` (additionally function objects and the
globals-bound empty dict).  `boundMethod v name` models the bound method
obtained by evaluating `v.name` on a value, e.g. `(0).__eq__`;
`emptyDict` models the empty dict object `\x7b\x7d` that `eval`'s globals
mapping binds to the name `__builtins__`. -/
inductive PyValue
  | int (n : Int)
  | float (q : Rat)
  | str (s : String)
  | bool (b : Bool)
  | none
  | builtin (f : BuiltinFn)
  | boundMethod (recv : PyValue) (methodName : String)
  | emptyDict
  deriving DecidableEq, Repr

/-- Models Python truthiness (`bool(v)`) for the modelled values:
`False`, `0`, `0.0`, `""` and `None` are falsy, everything else truthy. -/
def pyTruthy : PyValue → Bool
  | .int n => n != 0
  | .float q => q != 0
  | .str s => s != ""
  | .bool b => b
  | .none => false
  | .builtin _ => true
  | .boundMethod _ _ => true
  | .emptyDict => false

/-- Models `isinstance(v, (int, float))` together with the numeric value of
`v`: Python `bool` is a subclass of `int`, so `True`/`False` count as the
numbers 1/0.  Returns `Option.none` exactly when the isinstance check
fails. -/
def toNumber : PyValue → Option Rat
  | .int n => some (n : Rat)
  | .float q => some q
  | .bool b => some (if b then 1 else 0)
  | _ => Option.none

/-- Decimal rendering of a rational whose denominator divides a power of
ten, used to model `str()` of a Python float (exact for the terminating
decimals that appear in extracted data). -/
def decimalStr (q : Rat) : String :=
  if q.den = 1 then toString q.num ++ ".0"
  else
    match (List.range 40).find? (fun k => (q * (10 : Rat) ^ (k + 1)).den = 1) with
    | some k =>
        let scaled : Int := (q * (10 : Rat) ^ (k + 1)).num
        let sign := if scaled < 0 then "-" else ""
        let digits := (toString scaled.natAbs).data
        let digits := if digits.length ≤ k + 1 then
            List.replicate (k + 2 - digits.length) '0' ++ digits
          else digits
        let intPart := digits.take (digits.length - (k + 1))
        let fracPart := digits.drop (digits.length - (k + 1))
        sign ++ String.mk intPart ++ "." ++ String.mk fracPart
    | Option.none => toString q.num ++ "/" ++ toString q.den

/-- Models Python `str(v)` for the modelled values. -/
def pyStr : PyValue → String
  | .int n => toString n
  | .float q => decimalStr q
  | .str s => s
  | .bool b => if b then "True" else "False"
  | .none => "None"
  | .builtin f => "<built-in function " ++ (match f with
      | .abs => "abs" | .min => "min" | .max => "max") ++ ">"
  | .boundMethod _ m => "<method-wrapper " ++ m ++ ">"
  | .emptyDict => "\x7b\x7d"

/-- Models `str(type(v).__name__)` for the modelled values. -/
def pyTypeName : PyValue → String
  | .int _ => "int"
  | .float _ => "float"
  | .str _ => "str"
  | .bool _ => "bool"
  | .none => "NoneType"
  | .builtin _ => "builtin_function_or_method"
  | .boundMethod _ _ => "method-wrapper"
  | .emptyDict => "dict"

/-- Models Python `==` on the modelled values: cross-type numeric equality
(`True == 1`), string equality, `None == None`; values of unrelated kinds
compare unequal without raising. -/
def pyEq (a b : PyValue) : Bool :=
  match toNumber a, toNumber b with
  | some x, some y => x == y
  | _, _ =>
    match a, b with
    | .str s, .str t => s == t
    | .none, .none => true
    | .builtin f, .builtin g => f == g
    | .emptyDict, .emptyDict => true
    | _, _ => false

instance {α β : Type} [DecidableEq α] [DecidableEq β] : DecidableEq (Except α β) := fun a b =>
  match a, b with
  | .ok x, .ok y =>
      if h : x = y then .isTrue (by rw [h]) else .isFalse (by simp [h])
  | .error x, .error y =>
      if h : x = y then .isTrue (by rw [h]) else .isFalse (by simp [h])
  | .ok _, .error _ => .isFalse (by simp)
  | .error _, .ok _ => .isFalse (by simp)

/-! ## The cross-field expression language

`_apply_cross_field_rule` evaluates a configured condition string with
Python `eval(condition, \x7b"__builtins__": \x7b\x7d\x7d, eval_context)`.  The
expression grammar below covers the Python expression forms relevant to the
rule catalog and to the sandbox claim: literals, names, comparisons,
boolean operators, attribute access and calls.  `pyEval` models Python
evaluation of these forms: names resolve against the supplied mapping (the
locals dict) and otherwise raise `NameError` (the globals dict exposes no
builtins); comparisons follow Python numeric/string comparison and raise
`TypeError` on unsupported operand kinds; `or`/`and` return operand values
with short-circuit truthiness; attribute access performs `getattr`, which
`eval` does NOT restrict (modelled here for the universally available
dunder method `__eq__`); calls apply any callable value. -/

inductive CmpOp
  | le
  | lt
  | ge
  | gt
  | eq
  | ne
  deriving DecidableEq, Repr

inductive PyExpr
  | lit (v : PyValue)
  | name (s : String)
  | cmp (op : CmpOp) (a b : PyExpr)
  | orE (a b : PyExpr)
  | andE (a b : PyExpr)
  | notE (a : PyExpr)
  | attr (obj : PyExpr) (field : String)
  | call (fn : PyExpr) (args : List PyExpr)

/-- Models Python comparison `a op b` for the modelled values: numeric
comparison when both operands satisfy `isinstance(v, (int, float))`
(with bools as 0/1), lexicographic comparison for two strings, `==`/`!=`
via `pyEq` for anything, and `TypeError` otherwise. -/
def cmpValues (op : CmpOp) (a b : PyValue) : Except String PyValue :=
  match op with
  | .eq => .ok (.bool (pyEq a b))
  | .ne => .ok (.bool (!pyEq a b))
  | _ =>
    match toNumber a, toNumber b with
    | some x, some y =>
        .ok (.bool (match op with
          | .le => x ≤ y | .lt => x < y | .ge => y ≤ x | .gt => y < x
          | .eq => x == y | .ne => x != y))
    | _, _ =>
      match a, b with
      | .str s, .str t =>
          .ok (.bool (match op with
            | .le => s ≤ t | .lt => s < t | .ge => t ≤ s | .gt => t < s
            | .eq => s == t | .ne => s != t))
      | _, _ => .error "TypeError: unsupported comparison"

/-- Models Python `getattr(v, name)` for the attribute the development
needs: the dunder method `__eq__`, which exists on every object and which
`eval` with empty builtins does not block.  Other attribute names are
modelled as `AttributeError`. -/
def pyGetAttr (v : PyValue) (field : String) : Except String PyValue :=
  if field = "__eq__" then .ok (.boundMethod v "__eq__")
  else .error ("AttributeError: " ++ field)

/-- Models calling a Python value: the three helpers (`abs` on a number,
two-argument `min`/`max` on numbers or strings) and bound `__eq__`
methods; calling anything else raises `TypeError`. -/
def pyCall (fn : PyValue) (args : List PyValue) : Except String PyValue :=
  match fn, args with
  | .builtin .abs, [v] =>
      match v with
      | .int n => .ok (.int n.natAbs)
      | .float q => .ok (.float |q|)
      | .bool b => .ok (.int (if b then 1 else 0))
      | _ => .error "TypeError: bad operand type for abs"
  | .builtin .min, [a, b] =>
      match toNumber a, toNumber b with
      | some x, some y => .ok (if y < x then b else a)
      | _, _ =>
        match a, b with
        | .str s, .str t => .ok (if t < s then .str t else .str s)
        | _, _ => .error "TypeError: unorderable arguments to min"
  | .builtin .max, [a, b] =>
      match toNumber a, toNumber b with
      | some x, some y => .ok (if x < y then b else a)
      | _, _ =>
        match a, b with
        | .str s, .str t => .ok (if s < t then .str t else .str s)
        | _, _ => .error "TypeError: unorderable arguments to max"
  | .boundMethod recv "__eq__", [w] => .ok (.bool (pyEq recv w))
  | _, _ => .error "TypeError: object is not callable or bad arguments"

/-- Name resolution inside `eval`: the locals mapping is consulted
first; on a miss the globals mapping is consulted, and it contains
exactly the binding `__builtins__ = \x7b\x7d`, so the name `__builtins__`
resolves to the empty dict and every other unbound name raises
`NameError`. -/
def lookupName (ctx : List (String × PyValue)) (n : String) : Except String PyValue :=
  match ctx.lookup n with
  | some v => .ok v
  | Option.none =>
      if n = "__builtins__" then .ok .emptyDict
      else .error ("NameError: name " ++ n ++ " is not defined")

mutual

/-- Models Python `eval` of the modelled expression subset under a locals
mapping `ctx` and a globals dict exposing no builtins. -/
def pyEval (ctx : List (String × PyValue)) : PyExpr → Except String PyValue
  | .lit v => .ok v
  | .name n => lookupName ctx n
  | .cmp op a b => do
      let va ← pyEval ctx a
      let vb ← pyEval ctx b
      cmpValues op va vb
  | .orE a b => do
      let va ← pyEval ctx a
      if pyTruthy va then pure va else pyEval ctx b
  | .andE a b => do
      let va ← pyEval ctx a
      if pyTruthy va then pyEval ctx b else pure va
  | .notE a => do
      let va ← pyEval ctx a
      pure (.bool (!pyTruthy va))
  | .attr obj f => do
      let vo ← pyEval ctx obj
      pyGetAttr vo f
  | .call f args => do
      let vf ← pyEval ctx f
      let vargs ← pyEvalArgs ctx args
      pyCall vf vargs

/-- Evaluates an argument list left to right. -/
def pyEvalArgs (ctx : List (String × PyValue)) : List PyExpr → Except String (List PyValue)
  | [] => .ok []
  | e :: es => do
      let v ← pyEval ctx e
      let vs ← pyEvalArgs ctx es
      pure (v :: vs)

end

mutual

/-- Returns `true` when the expression contains no attribute-access node. -/
def attrFree : PyExpr → Bool
  | .lit _ => true
  | .name _ => true
  | .cmp _ a b => attrFree a && attrFree b
  | .orE a b => attrFree a && attrFree b
  | .andE a b => attrFree a && attrFree b
  | .notE a => attrFree a
  | .attr _ _ => false
  | .call f args => attrFree f && attrFreeList args

/-- Extends `attrFree` over a list of expressions. -/
def attrFreeList : List PyExpr → Bool
  | [] => true
  | e :: es => attrFree e && attrFreeList es

end

/-! ## Dates (`_parse_date`, `datetime.now()` arithmetic)

`_parse_date` tries `datetime.strptime` against six formats.  Dates are
modelled as integer day numbers (days since the civil epoch 1970-01-01);
`datetime.now()` becomes an explicit day-number parameter, and
`(datetime.now() - parsed).days` becomes integer subtraction of day
numbers (the parsed datetime is at midnight; the time-of-day part of
`now` is dropped, which leaves the `.days` field unchanged for past
dates). -/

/-- Day count of the proleptic Gregorian date `y-m-d` relative to
1970-01-01 (standard civil-from-days formula; valid for `y ≥ 1`). -/
def daysFromCivil (y m d : Int) : Int :=
  let y' := if m ≤ 2 then y - 1 else y
  let era := y' / 400
  let yoe := y' - era * 400
  let mp := if m > 2 then m - 3 else m + 9
  let doy := (153 * mp + 2) / 5 + d - 1
  let doe := yoe * 365 + yoe / 4 - yoe / 100 + doy
  era * 146097 + doe - 719468

/-- Gregorian leap-year test. -/
def isLeapYear (y : Int) : Bool :=
  (y % 4 == 0 && y % 100 != 0) || y % 400 == 0

/-- Number of days in month `m` of year `y`. -/
def daysInMonth (y m : Int) : Int :=
  if m = 2 then (if isLeapYear y then 29 else 28)
  else if m = 4 ∨ m = 6 ∨ m = 9 ∨ m = 11 then 30
  else 31

/-- Splitting a character list at every occurrence of a separator
(the behaviour of `str.split` on a one-character separator). -/
def splitOnCharAux (sep : Char) : List Char → List Char → List (List Char)
  | [], acc => [acc.reverse]
  | c :: cs, acc =>
      if c = sep then acc.reverse :: splitOnCharAux sep cs []
      else splitOnCharAux sep cs (c :: acc)

/-- Split a character list on a separator character. -/
def splitOnChar (sep : Char) (l : List Char) : List (List Char) :=
  splitOnCharAux sep l []

/-- A digit-only component of bounded length, as matched by the `strptime`
directives `%Y` (up to 4 digits), `%m`/`%d` (up to 2 digits). -/
def digitComponent (maxLen : Nat) (cs : List Char) : Option Int :=
  if cs.length = 0 ∨ cs.length > maxLen ∨ ¬ cs.all Char.isDigit then Option.none
  else some ((cs.foldl (fun a c => a * 10 + (c.toNat - 48)) 0 : Nat) : Int)

/-- Models one `strptime` attempt against a three-component date format:
split on the separator, read the year/month/day components in the order
the format dictates, and validate calendar ranges as `strptime` does.
Returns the civil day number on success. -/
def tryFormat (sep : Char) (order : Nat × Nat × Nat) (s : String) : Option Int :=
  match splitOnChar sep s.data with
  | [a, b, c] => do
      let comps := [a, b, c]
      let (yi, mi, di) := order
      let y ← digitComponent 4 (comps.getD yi [])
      let m ← digitComponent 2 (comps.getD mi [])
      let d ← digitComponent 2 (comps.getD di [])
      if 1 ≤ y ∧ y ≤ 9999 ∧ 1 ≤ m ∧ m ≤ 12 ∧ 1 ≤ d ∧ d ≤ daysInMonth y m then
        some (daysFromCivil y m d)
      else Option.none
  | _ => Option.none

/-- Model of `ValidationService._parse_date` (validation.py lines 400-424), modelled
on day numbers: strings are tried against the six formats
`%Y-%m-%d`, `%m/%d/%Y`, `%d/%m/%Y`, `%Y/%m/%d`, `%m-%d-%Y`, `%d-%m-%Y`
in order, first success wins; non-string values parse to nothing
(extracted data is JSON, so `datetime` instances do not occur). -/
def parseDate : PyValue → Option Int
  | .str s =>
      (tryFormat '-' (0, 1, 2) s).orElse fun _ =>
      (tryFormat '/' (2, 0, 1) s).orElse fun _ =>
      (tryFormat '/' (2, 1, 0) s).orElse fun _ =>
      (tryFormat '/' (0, 1, 2) s).orElse fun _ =>
      (tryFormat '-' (2, 0, 1) s).orElse fun _ =>
      (tryFormat '-' (2, 1, 0) s)
  | _ => Option.none

/-! ## Validation engine (app/services/validation.py) -/

/-- Structure `ValidationError` (validation.py lines 16-23). -/
structure ValidationError where
  field : String
  category : ExceptionCategory
  priority : ExceptionPriority
  message : String
  expected : Option String := Option.none
  actual : Option String := Option.none
  deriving DecidableEq, Repr

/-- Structure `ValidationResult` (validation.py lines 26-30). -/
structure ValidationResult where
  is_valid : Bool
  errors : List ValidationError
  warnings : List ValidationError
  deriving DecidableEq, Repr

/-- The `type` tag of a single-field rule in `VALIDATION_RULES`. -/
inductive RuleType
  | positive_number
  | non_negative
  | number
  | percentage
  | date
  deriving DecidableEq, Repr

/-- A single-field rule entry of `VALIDATION_RULES` (every entry in the
catalog carries an explicit priority; `minVal`/`maxVal` are the optional
`min`/`max` keys of percentage rules, `maxAgeDays` the optional
`max_age_days` key of date rules). -/
structure Rule where
  field : String
  type : RuleType
  minVal : Option Int := Option.none
  maxVal : Option Int := Option.none
  maxAgeDays : Option Int := Option.none
  priority : ExceptionPriority
  deriving Repr

/-- A cross-field rule entry of `VALIDATION_RULES`; `condition` is the
parse of the configured Python condition string (given in `conditionStr`). -/
structure CrossRule where
  conditionStr : String
  condition : PyExpr
  message : String
  priority : ExceptionPriority

/-- One document type's entry in `VALIDATION_RULES`. -/
structure RuleCatalog where
  required_fields : List String
  rules : List Rule
  cross_field_rules : List CrossRule

/-- Catalog `VALIDATION_RULES` (validation.py lines 34-177): the per-type rule
catalog, `Option.none` for types without an entry.  Each cross-field
`condition` is the Python parse of the string recorded next to it. -/
def validationRules : DocumentType → Option RuleCatalog
  | .MONTHLY_FINANCIALS => some {
      required_fields := ["period_end_date", "revenue"],
      rules := [
        { field := "revenue", type := .positive_number, priority := .HIGH },
        { field := "ebitda", type := .number, priority := .MEDIUM },
        { field := "gross_margin", type := .percentage,
          minVal := some 0, maxVal := some 100, priority := .MEDIUM },
        { field := "ebitda_margin", type := .percentage,
          minVal := some (-100), maxVal := some 100, priority := .LOW },
        { field := "period_end_date", type := .date,
          maxAgeDays := some 180, priority := .MEDIUM }],
      cross_field_rules := [
        { conditionStr := "gross_profit <= revenue",
          condition := .cmp .le (.name "gross_profit") (.name "revenue"),
          message := "Gross profit cannot exceed revenue",
          priority := .HIGH }] }
  | .COVENANT_COMPLIANCE => some {
      required_fields := ["reporting_period", "overall_compliance"],
      rules := [
        { field := "leverage_ratio", type := .positive_number, priority := .HIGH },
        { field := "interest_coverage_ratio", type := .positive_number, priority := .HIGH },
        { field := "reporting_period", type := .date,
          maxAgeDays := some 120, priority := .MEDIUM }],
      cross_field_rules := [
        { conditionStr := "leverage_ratio <= leverage_covenant or not leverage_compliant",
          condition := .orE (.cmp .le (.name "leverage_ratio") (.name "leverage_covenant"))
            (.notE (.name "leverage_compliant")),
          message := "Leverage compliance flag does not match ratio vs covenant",
          priority := .HIGH }] }
  | .BORROWING_BASE => some {
      required_fields := ["certificate_date", "eligible_ar", "total_availability"],
      rules := [
        { field := "eligible_ar", type := .non_negative, priority := .HIGH },
        { field := "eligible_inventory", type := .non_negative, priority := .MEDIUM },
        { field := "ar_advance_rate", type := .percentage,
          minVal := some 0, maxVal := some 95, priority := .MEDIUM },
        { field := "inventory_advance_rate", type := .percentage,
          minVal := some 0, maxVal := some 70, priority := .MEDIUM }],
      cross_field_rules := [
        { conditionStr := "eligible_ar <= gross_accounts_receivable",
          condition := .cmp .le (.name "eligible_ar") (.name "gross_accounts_receivable"),
          message := "Eligible AR cannot exceed gross AR",
          priority := .HIGH },
        { conditionStr := "total_availability >= 0",
          condition := .cmp .ge (.name "total_availability") (.lit (.int 0)),
          message := "Total availability cannot be negative",
          priority := .CRITICAL }] }
  | .CAPITAL_CALL => some {
      required_fields := ["notice_date", "due_date", "call_amount"],
      rules := [
        { field := "call_amount", type := .positive_number, priority := .HIGH }],
      cross_field_rules := [
        { conditionStr := "due_date > notice_date",
          condition := .cmp .gt (.name "due_date") (.name "notice_date"),
          message := "Due date must be after notice date",
          priority := .HIGH }] }
  | _ => Option.none

/-- Extracted data: a JSON object, i.e. a finite string-keyed mapping. -/
abbrev FieldMap := List (String × PyValue)

/-- Reads `data.get(field)` on the mapping, with absent keys reading as `None`
(exactly how `_apply_rule` sees the value). -/
def getField (data : FieldMap) (f : String) : PyValue :=
  (data.lookup f).getD .none

/-- The required-field test of `validate` (line 214):
`field not in data or data[field] is None`. -/
def requiredFieldMissing (data : FieldMap) (f : String) : Bool :=
  match data.lookup f with
  | Option.none => true
  | some .none => true
  | some _ => false

/-- Model of `ValidationService._apply_rule` (validation.py lines 252-349), with
`datetime.now()` passed in as the day number `now`.  Returns the
validation error for a failing rule, and nothing when the field is
absent/null or the rule passes. -/
def applyRule (data : FieldMap) (rule : Rule) (now : Int) : Option ValidationError :=
  let value := getField data rule.field
  if value = .none then Option.none
  else
    match rule.type with
    | .positive_number =>
        match toNumber value with
        | some q =>
            if q ≤ 0 then
              some { field := rule.field, category := .VALIDATION_ERROR,
                     priority := rule.priority,
                     message := "Field \x27" ++ rule.field ++ "\x27 must be a positive number",
                     expected := some "positive number", actual := some (pyStr value) }
            else Option.none
        | Option.none =>
            some { field := rule.field, category := .VALIDATION_ERROR,
                   priority := rule.priority,
                   message := "Field \x27" ++ rule.field ++ "\x27 must be a positive number",
                   expected := some "positive number", actual := some (pyStr value) }
    | .non_negative =>
        match toNumber value with
        | some q =>
            if q < 0 then
              some { field := rule.field, category := .VALIDATION_ERROR,
                     priority := rule.priority,
                     message := "Field \x27" ++ rule.field ++ "\x27 cannot be negative",
                     expected := some "non-negative number", actual := some (pyStr value) }
            else Option.none
        | Option.none =>
            some { field := rule.field, category := .VALIDATION_ERROR,
                   priority := rule.priority,
                   message := "Field \x27" ++ rule.field ++ "\x27 cannot be negative",
                   expected := some "non-negative number", actual := some (pyStr value) }
    | .number =>
        match toNumber value with
        | some _ => Option.none
        | Option.none =>
            some { field := rule.field, category := .INVALID_FORMAT,
                   priority := rule.priority,
                   message := "Field \x27" ++ rule.field ++ "\x27 must be a number",
                   expected := some "number", actual := some (pyTypeName value) }
    | .percentage =>
        match toNumber value with
        | Option.none =>
            some { field := rule.field, category := .INVALID_FORMAT,
                   priority := rule.priority,
                   message := "Field \x27" ++ rule.field ++ "\x27 must be a percentage",
                   expected := some "percentage", actual := some (pyStr value) }
        | some q =>
            let minV := rule.minVal.getD 0
            let maxV := rule.maxVal.getD 100
            if q < (minV : Rat) ∨ (maxV : Rat) < q then
              some { field := rule.field, category := .VALIDATION_ERROR,
                     priority := rule.priority,
                     message := "Field \x27" ++ rule.field ++ "\x27 must be between "
                       ++ toString minV ++ "% and " ++ toString maxV ++ "%",
                     expected := some (toString minV ++ "-" ++ toString maxV),
                     actual := some (pyStr value) }
            else Option.none
    | .date =>
        match parseDate value with
        | Option.none =>
            some { field := rule.field, category := .INVALID_FORMAT,
                   priority := rule.priority,
                   message := "Field \x27" ++ rule.field ++ "\x27 is not a valid date",
                   expected := some "date (YYYY-MM-DD)", actual := some (pyStr value) }
        | some day =>
            match rule.maxAgeDays with
            | Option.none => Option.none
            | some maxAge =>
                if maxAge = 0 then Option.none
                else
                  let age := now - day
                  if age > maxAge then
                    some { field := rule.field, category := .VALIDATION_ERROR,
                           priority := rule.priority,
                           message := "Field \x27" ++ rule.field ++ "\x27 is older than "
                             ++ toString maxAge ++ " days",
                           expected := some ("within " ++ toString maxAge ++ " days"),
                           actual := some (toString age ++ " days old") }
                  else Option.none

/-- The `eval` context built by `_apply_cross_field_rule` (lines 358-364):
the non-null fields of the data, then the three helpers (dict update, so
the helper bindings shadow same-named fields). -/
def crossEvalContext (data : FieldMap) : List (String × PyValue) :=
  [("abs", .builtin .abs), ("min", .builtin .min), ("max", .builtin .max)]
    ++ data.filter (fun p => p.2 ≠ .none)

/-- Model of `ValidationService._apply_cross_field_rule` (validation.py lines
351-381): evaluate the condition; a raised exception skips the rule; a
falsy result yields one `cross_field` error with the rule's message and
priority and the sentinel field name. -/
def applyCrossFieldRule (data : FieldMap) (rule : CrossRule) : Option ValidationError :=
  match pyEval (crossEvalContext data) rule.condition with
  | .error _ => Option.none
  | .ok v =>
      if pyTruthy v then Option.none
      else some { field := "_cross_field", category := .CROSS_FIELD,
                  priority := rule.priority, message := rule.message }

/-- Returns `true` when the cross-field condition evaluates without raising and
the result is truthy (the case in which `_apply_cross_field_rule` is
silent because the rule passed). -/
def crossCondTruthy (data : FieldMap) (rule : CrossRule) : Bool :=
  match pyEval (crossEvalContext data) rule.condition with
  | .ok v => pyTruthy v
  | .error _ => false

/-- Model of `ValidationService._validate_generic` (validation.py lines 383-398). -/
def validateGeneric (data : FieldMap) : List ValidationError :=
  if data = [] ∨ data.all (fun p => p.2 = .none) then
    [{ field := "_all", category := .EXTRACTION_ERROR, priority := .CRITICAL,
       message := "No data could be extracted from the document" }]
  else []

/-- The field-rule loop of `validate` (lines 225-231): each failing rule
goes to the warnings list when the rule's declared priority is LOW and to
the errors list otherwise; returns `(errors, warnings)` in rule order. -/
def applyFieldRules (data : FieldMap) (now : Int) : List Rule → List ValidationError × List ValidationError
  | [] => ([], [])
  | r :: rs =>
      let rest := applyFieldRules data now rs
      match applyRule data r now with
      | Option.none => rest
      | some e =>
          if r.priority = .LOW then (rest.1, e :: rest.2)
          else (e :: rest.1, rest.2)

/-- The required-field loop of `validate` (lines 213-222). -/
def requiredFieldErrors (data : FieldMap) (required : List String) : List ValidationError :=
  required.filterMap fun f =>
    if requiredFieldMissing data f then
      some { field := f, category := .MISSING_FIELD, priority := .HIGH,
             message := "Required field \x27" ++ f ++ "\x27 is missing" }
    else Option.none

/-- Model of `ValidationService.validate` (validation.py lines 183-250), with
`datetime.now()` made explicit as the day number `now`.  Unknown or
uncatalogued types take the generic path; otherwise errors accumulate in
pass order (required fields, then single-field rules, then cross-field
rules) and `is_valid` is derived as `errors` being empty. -/
def validate (data : FieldMap) (docType : Option DocumentType) (now : Int) : ValidationResult :=
  match docType with
  | Option.none =>
      let errors := validateGeneric data
      { is_valid := errors.isEmpty, errors := errors, warnings := [] }
  | some t =>
      match validationRules t with
      | Option.none =>
          let errors := validateGeneric data
          { is_valid := errors.isEmpty, errors := errors, warnings := [] }
      | some catalog =>
          let reqErrors := requiredFieldErrors data catalog.required_fields
          let ruleResults := applyFieldRules data now catalog.rules
          let crossErrors := catalog.cross_field_rules.filterMap (applyCrossFieldRule data)
          let errors := reqErrors ++ ruleResults.1 ++ crossErrors
          { is_valid := errors.isEmpty, errors := errors, warnings := ruleResults.2 }

/-- The single-field rule list bound to a document type by
`VALIDATION_RULES` (empty for absent types or absent catalogs). -/
def catalogRules : Option DocumentType → List Rule
  | Option.none => []
  | some t =>
      match validationRules t with
      | Option.none => []
      | some c => c.rules

/-! ## Document lifecycle (app/services/processor.py) -/

/-- The fields of an `Exception` record (app/models/exception.py) that
`DocumentProcessor.process_document` fills in when materializing a
validation or low-confidence exception (lines 150-177); the enum-valued
columns hold `.value` strings, as in the code. -/
structure ExcRecord where
  category : String
  reason : String
  fieldName : Option String := Option.none
  expectedValue : Option String := Option.none
  actualValue : Option String := Option.none
  priority : String
  deriving DecidableEq, Repr

/-- The `DocumentException(...)` constructed per validation error
(processor.py lines 150-158): category/priority as `.value` strings,
field name, expected and actual copied from the error. -/
def mkExcFromError (e : ValidationError) : ExcRecord :=
  { category := e.category.value, reason := e.message,
    fieldName := some e.field, expectedValue := e.expected,
    actualValue := e.actual, priority := e.priority.value }

/-- Rendering of a rational in the style of Python float formatting
`:.2%`: the value times 100, with two decimal places (ties rounded up in
the model) and a percent sign. -/
def pctStr (q : Rat) : String :=
  let scaled : Int := Int.fdiv (q.num * 20000 + (q.den : Int)) (2 * (q.den : Int))
  let sign := if scaled < 0 then "-" else ""
  let n := scaled.natAbs
  let intPart := n / 100
  let frac := n % 100
  let fracStr := if frac < 10 then "0" ++ toString frac else toString frac
  sign ++ toString intPart ++ "." ++ fracStr ++ "%"

/-- The reason string of the low-confidence exception
(processor.py line 174). -/
def lowConfReason (confidence threshold : Rat) : String :=
  "Overall extraction confidence (" ++ pctStr confidence
    ++ ") below threshold (" ++ pctStr threshold ++ ")"

/-- The low-confidence `DocumentException` (processor.py lines 171-176):
category `low_confidence`, priority MEDIUM, no field/expected/actual. -/
def lowConfExc (confidence threshold : Rat) : ExcRecord :=
  { category := ExceptionCategory.LOW_CONFIDENCE.value,
    reason := lowConfReason confidence threshold,
    priority := ExceptionPriority.MEDIUM.value }

/-- The outcome decision of `process_document` (processor.py lines
143-194): final status, the value written to `requires_review`, and the
exception records materialized, as a function of the validation result
and the overall confidence against the configured threshold. -/
def decideOutcome (vr : ValidationResult) (confidence threshold : Rat) :
    DocumentStatus × Bool × List ExcRecord :=
  if !vr.is_valid then
    (.NEEDS_REVIEW, true, vr.errors.map mkExcFromError)
  else if confidence < threshold then
    (.NEEDS_REVIEW, true, [lowConfExc confidence threshold])
  else
    (.PROCESSED, false, [])

/-- The review-relevant document columns a pipeline run touches. -/
structure DocReviewState where
  status : DocumentStatus
  requiresReview : Bool
  deriving DecidableEq, Repr

/-- How one pipeline run ends.  A raise anywhere in the `try` block of
`process_document` lands in the `except` branch (lines 219-259); what
that branch persists for `requires_review` depends on where the raise
happened: `failedBeforeDecision` covers raises before the outcome
decision at line 143 (download, extraction, type detection, validation),
when the in-memory flag still holds its run-begin value, and
`failedAfterDecision` covers raises after the decision wrote the flag at
line 146/168/186 (the `move_file` call at line 189, the commit at line
195, the audit write at line 198), when the flag holds the decision's
value.  `completed` is a run whose `try` block finishes. -/
inductive PipelineRun
  | failedBeforeDecision
  | failedAfterDecision (vr : ValidationResult) (confidence threshold : Rat)
  | completed (vr : ValidationResult) (confidence threshold : Rat)

/-- The effect of one `process_document` run on the review-relevant
columns, starting from the state the document held when the run began:
a completed run applies the outcome decision (lines 143-194); a failed
run sets status FAILED (line 227) and commits whatever value the
in-memory `requires_review` flag holds at the moment of failure — the
run-begin value when the raise precedes the outcome decision, the
decision's value when it follows it (the failure handler itself never
writes the flag). -/
def runPipeline (init : DocReviewState) : PipelineRun → DocReviewState
  | .failedBeforeDecision =>
      { status := .FAILED, requiresReview := init.requiresReview }
  | .failedAfterDecision vr confidence threshold =>
      { status := .FAILED, requiresReview := (decideOutcome vr confidence threshold).2.1 }
  | .completed vr confidence threshold =>
      let (st, rv, _) := decideOutcome vr confidence threshold
      { status := st, requiresReview := rv }

/-! ## Extraction orchestration (processor.py lines 83-118, 276-305) -/

/-- The `(extracted_data, confidence, field_confidences, processor_type)`
tuple returned by an extractor. -/
structure ExtractionResult where
  fields : FieldMap
  confidence : Rat
  fieldConfidences : List (String × Rat)
  processor : ProcessorType
  deriving DecidableEq, Repr

/-- The extractor-selection logic of `process_document` (lines 83-118) as
a function of the two extractors' results: in the forced path the Claude
result is used outright; otherwise Document AI runs first and Claude is
invoked only when the Document AI confidence is below the threshold, its
data/confidence/field-confidences being adopted (with tag
`ProcessorType.CLAUDE`) exactly when its confidence is strictly higher.
The boolean reports whether the Claude path was invoked. -/
def extractionPhase (forceClaude : Bool) (docAiResult claudeResult : ExtractionResult)
    (threshold : Rat) : ExtractionResult × Bool :=
  if forceClaude then (claudeResult, true)
  else if docAiResult.confidence < threshold then
    if claudeResult.confidence > docAiResult.confidence then
      ({ fields := claudeResult.fields, confidence := claudeResult.confidence,
         fieldConfidences := claudeResult.fieldConfidences,
         processor := ProcessorType.CLAUDE }, true)
    else (docAiResult, true)
  else (docAiResult, false)

/-- Model of `DocumentProcessor._process_with_claude` (processor.py lines 276-305)
as a function of the text the OCR step produced and the outcome of the
Claude extraction call: an empty OCR text short-circuits to the empty
result with confidence 0.0 and tag CLAUDE instead of calling Claude (or
failing); otherwise the Claude call's outcome (value or raised error) is
returned as-is. -/
def processWithClaude (ocrText : String)
    (claudeOutcome : Except String ExtractionResult) : Except String ExtractionResult :=
  if ocrText = "" then
    .ok { fields := [], confidence := 0, fieldConfidences := [],
          processor := ProcessorType.CLAUDE }
  else claudeOutcome

end CapitalSpring

namespace CapitalSpring

/-! ## Shared lemmas -/

/-- A successful assoc-list lookup is a membership. -/
theorem lookup_mem {l : List (String × PyValue)} {n : String} {v : PyValue}
    (h : l.lookup n = some v) : (n, v) ∈ l := by
  induction l with
  | nil => simp [List.lookup] at h
  | cons p ps ih =>
      obtain ⟨k, w⟩ := p
      by_cases hk : n = k
      · subst hk
        simp [List.lookup] at h
        simp [h]
      · have hk' : (n == k) = false := by simp [hk]
        simp [List.lookup, hk'] at h
        exact List.mem_cons_of_mem _ (ih h)

/-- Every error `_apply_rule` can produce carries category
`validation_error` or `invalid_format`. -/
theorem applyRule_category {data : FieldMap} {r : Rule} {now : Int} {e : ValidationError}
    (h : applyRule data r now = some e) :
    e.category = .VALIDATION_ERROR ∨ e.category = .INVALID_FORMAT := by
  unfold applyRule at h
  dsimp only at h
  repeat' split at h
  all_goals (try (cases h))
  all_goals simp

/-- Every error `_apply_cross_field_rule` can produce is exactly the
sentinel cross-field error of its rule. -/
theorem applyCrossFieldRule_some {data : FieldMap} {r : CrossRule} {e : ValidationError}
    (h : applyCrossFieldRule data r = some e) :
    e = { field := "_cross_field", category := .CROSS_FIELD,
          priority := r.priority, message := r.message } := by
  unfold applyCrossFieldRule at h
  repeat' split at h
  all_goals (try (cases h))
  all_goals rfl

/-- A passing cross-field rule contributes nothing. -/
theorem applyCrossFieldRule_of_truthy {data : FieldMap} {r : CrossRule}
    (h : crossCondTruthy data r = true) :
    applyCrossFieldRule data r = Option.none := by
  unfold crossCondTruthy at h
  unfold applyCrossFieldRule
  split at h
  · simp_all
  · simp_all

/-- The field-rule loop of `validate` routes each failing rule to the
error or warning stream according to the rule's declared priority. -/
theorem applyFieldRules_eq (data : FieldMap) (now : Int) (rules : List Rule) :
    applyFieldRules data now rules =
      (rules.filterMap (fun r => if r.priority = .LOW then Option.none else applyRule data r now),
       rules.filterMap (fun r => if r.priority = .LOW then applyRule data r now else Option.none)) := by
  induction rules with
  | nil => rfl
  | cons r rs ih =>
      by_cases hp : r.priority = .LOW <;>
        cases h : applyRule data r now <;>
          simp [applyFieldRules, ih, hp, h]

/-- Projection `is_valid` is derived from the error list being empty. -/
theorem validate_is_valid (data : FieldMap) (dt : Option DocumentType) (now : Int) :
    (validate data dt now).is_valid = (validate data dt now).errors.isEmpty := by
  cases dt with
  | none => rfl
  | some t => cases h : validationRules t <;> simp [validate, h]

/-- Every error of a `validate` result is a required-field error, a
generic-extraction error, a single-field rule error or a cross-field
error. -/
theorem validate_errors_cases {data : FieldMap} {dt : Option DocumentType} {now : Int}
    {e : ValidationError} (h : e ∈ (validate data dt now).errors) :
    e.category = .MISSING_FIELD ∨ e.category = .EXTRACTION_ERROR ∨
    (∃ r, applyRule data r now = some e) ∨ (∃ r, applyCrossFieldRule data r = some e) := by
  have generic : ∀ d : FieldMap, e ∈ validateGeneric d → e.category = .EXTRACTION_ERROR := by
    intro d hg
    unfold validateGeneric at hg
    split at hg
    · simp at hg
      simp [hg]
    · simp at hg
  cases dt with
  | none =>
      simp only [validate] at h
      exact Or.inr (Or.inl (generic _ h))
  | some t =>
      cases hcat : validationRules t with
      | none =>
          simp only [validate, hcat] at h
          exact Or.inr (Or.inl (generic _ h))
      | some catalog =>
          simp only [validate, hcat, applyFieldRules_eq] at h
          simp only [List.mem_append] at h
          rcases h with (h | h) | h
          · left
            unfold requiredFieldErrors at h
            simp only [List.mem_filterMap] at h
            obtain ⟨f, _, hf⟩ := h
            split at hf
            · simp at hf
              simp [← hf]
            · simp at hf
          · right; right; left
            simp only [List.mem_filterMap] at h
            obtain ⟨r, _, hr⟩ := h
            split at hr
            · simp at hr
            · exact ⟨r, hr⟩
          · right; right; right
            simp only [List.mem_filterMap] at h
            obtain ⟨r, _, hr⟩ := h
            exact ⟨r, hr⟩

end CapitalSpring

namespace CapitalSpring

/-! ## Claim theorems -/

/-- C1 (amended): for a pipeline run whose `try` block completes,
`requires_review` is true iff the final status is NEEDS_REVIEW.  A run
that ends in FAILED persists whatever value the flag held at the moment
of failure: the run-begin value when the raise precedes the outcome
decision, and the decision's value when the raise follows it (e.g. the
blob relocation or the completion audit write raising) — so a FAILED run
can leave `requires_review` true either way, and the biconditional is
guaranteed only for completed runs. -/
theorem claim_C1 (init : DocReviewState) (vr : ValidationResult)
    (confidence threshold : Rat) :
    ((runPipeline init (.completed vr confidence threshold)).requiresReview = true
      ↔ (runPipeline init (.completed vr confidence threshold)).status = .NEEDS_REVIEW)
    ∧ (runPipeline init .failedBeforeDecision).requiresReview = init.requiresReview
    ∧ (runPipeline init .failedBeforeDecision).status = .FAILED
    ∧ (runPipeline init (.failedAfterDecision vr confidence threshold)).requiresReview
        = (decideOutcome vr confidence threshold).2.1
    ∧ (runPipeline init (.failedAfterDecision vr confidence threshold)).status = .FAILED := by
  refine ⟨?_, rfl, rfl, rfl, rfl⟩
  simp only [runPipeline, decideOutcome]
  split
  · simp
  · split <;> simp

/-- C1 counterexample: the claimed biconditional fails for a run that
raises before the outcome decision on a document whose `requires_review`
was already true when the run began (reachable: the reprocess endpoint
resets `status` but not `requires_review`). -/
theorem claim_C1_counterexample :
    ¬ (∀ (init : DocReviewState) (run : PipelineRun),
        ((runPipeline init run).requiresReview = true
          ↔ (runPipeline init run).status = .NEEDS_REVIEW)) := by
  intro hclaim
  have h := (hclaim { status := .NEEDS_REVIEW, requiresReview := true }
    .failedBeforeDecision).mp rfl
  exact absurd h (by decide)

/-- C5: a cross-field rule whose condition raises during evaluation
contributes neither an error nor a warning, and one whose condition
evaluates to a falsy value contributes exactly one error with the
sentinel field, category `cross_field`, the rule's message and the
rule's configured priority. -/
theorem claim_C5 (data : FieldMap) (rule : CrossRule) :
    (∀ msg, pyEval (crossEvalContext data) rule.condition = .error msg →
      applyCrossFieldRule data rule = Option.none)
    ∧ (∀ v, pyEval (crossEvalContext data) rule.condition = .ok v → pyTruthy v = false →
      applyCrossFieldRule data rule =
        some { field := "_cross_field", category := .CROSS_FIELD,
               priority := rule.priority, message := rule.message }) := by
  constructor
  · intro msg hmsg
    unfold applyCrossFieldRule
    rw [hmsg]
  · intro v hv hfalse
    unfold applyCrossFieldRule
    rw [hv]
    simp [hfalse]

/-- C5 witness: Scenario E — fields `eligible_ar = 500`,
`gross_accounts_receivable = 400` against the borrowing-base rule
`eligible_ar <= gross_accounts_receivable` yield exactly one
`cross_field` error with priority HIGH; and a rule whose condition
mentions an absent field is skipped. -/
theorem claim_C5_witness :
    applyCrossFieldRule [("eligible_ar", .int 500), ("gross_accounts_receivable", .int 400)]
      { conditionStr := "eligible_ar <= gross_accounts_receivable",
        condition := .cmp .le (.name "eligible_ar") (.name "gross_accounts_receivable"),
        message := "Eligible AR cannot exceed gross AR", priority := .HIGH }
      = some { field := "_cross_field", category := .CROSS_FIELD,
               priority := .HIGH, message := "Eligible AR cannot exceed gross AR" }
    ∧ applyCrossFieldRule [("eligible_ar", .int 500)]
      { conditionStr := "eligible_ar <= gross_accounts_receivable",
        condition := .cmp .le (.name "eligible_ar") (.name "gross_accounts_receivable"),
        message := "Eligible AR cannot exceed gross AR", priority := .HIGH }
      = Option.none := by
  constructor
  · exact (claim_C5 [("eligible_ar", .int 500), ("gross_accounts_receivable", .int 400)]
      { conditionStr := "eligible_ar <= gross_accounts_receivable",
        condition := .cmp .le (.name "eligible_ar") (.name "gross_accounts_receivable"),
        message := "Eligible AR cannot exceed gross AR", priority := .HIGH }).2
      (.bool false) (by decide) (by decide)
  · exact (claim_C5 [("eligible_ar", .int 500)]
      { conditionStr := "eligible_ar <= gross_accounts_receivable",
        condition := .cmp .le (.name "eligible_ar") (.name "gross_accounts_receivable"),
        message := "Eligible AR cannot exceed gross AR", priority := .HIGH }).1
      "NameError: name gross_accounts_receivable is not defined" (by decide)

/-- C6 (amended): the names visible to cross-field evaluation are
exactly the document's non-null fields, the helpers `abs`, `min` and
`max`, and the globals binding `__builtins__` (which resolves to the
empty dict) — any name that resolves during evaluation yields one of
these.  (The original claim additionally asserted that no attribute
access and no calls beyond the three helpers are possible; that part is
false, see the counterexample.) -/
theorem claim_C6 (data : FieldMap) (n : String) (v : PyValue)
    (h : lookupName (crossEvalContext data) n = .ok v) :
    (n = "abs" ∧ v = .builtin .abs) ∨ (n = "min" ∧ v = .builtin .min) ∨
    (n = "max" ∧ v = .builtin .max) ∨ (n = "__builtins__" ∧ v = .emptyDict) ∨
    ((n, v) ∈ data ∧ v ≠ .none) := by
  unfold lookupName at h
  cases hl : List.lookup n (crossEvalContext data) with
  | none =>
      rw [hl] at h
      by_cases hb : n = "__builtins__"
      · rw [if_pos hb] at h
        cases h
        exact Or.inr (Or.inr (Or.inr (Or.inl ⟨hb, rfl⟩)))
      · rw [if_neg hb] at h
        cases h
  | some w =>
      rw [hl] at h
      cases h
      unfold crossEvalContext at hl
      by_cases ha : n = "abs"
      · subst ha; simp [List.lookup] at hl; simp [hl]
      · by_cases hm : n = "min"
        · subst hm; simp [List.lookup] at hl; simp [hl]
        · by_cases hx : n = "max"
          · subst hx; simp [List.lookup] at hl; simp [hl]
          · have ha' : (n == "abs") = false := by simp [ha]
            have hm' : (n == "min") = false := by simp [hm]
            have hx' : (n == "max") = false := by simp [hx]
            simp only [List.lookup, List.cons_append, List.nil_append, ha', hm', hx'] at hl
            have hmem := lookup_mem hl
            simp only [List.append_eq, List.nil_append, List.mem_filter] at hmem
            right; right; right; right
            refine ⟨hmem.1, ?_⟩
            simpa using hmem.2

/-- C6 counterexample: the sandbox does not prevent attribute access or
calls to objects other than the three helpers — the expression
`(0).__eq__(0)` (attribute access on a literal followed by a bound-method
call) evaluates successfully under an empty document, refuting the claim
that every successfully evaluated condition is free of attribute
access. -/
theorem claim_C6_counterexample :
    ¬ (∀ (e : PyExpr) (data : FieldMap) (v : PyValue),
        pyEval (crossEvalContext data) e = .ok v → attrFree e = true) := by
  intro hclaim
  have h := hclaim (.call (.attr (.lit (.int 0)) "__eq__") [.lit (.int 0)]) []
    (.bool true) (by decide)
  exact absurd h (by decide)

/-- C6 witness: a non-null field resolves to its value, and the name
`__builtins__` resolves (to the empty dict) even over an empty
document. -/
theorem claim_C6_witness :
    ((("x" : String) = "abs" ∧ (PyValue.int 1) = .builtin .abs) ∨
      (("x" : String) = "min" ∧ (PyValue.int 1) = .builtin .min) ∨
      (("x" : String) = "max" ∧ (PyValue.int 1) = .builtin .max) ∨
      (("x" : String) = "__builtins__" ∧ (PyValue.int 1) = .emptyDict) ∨
      ((("x" : String), PyValue.int 1) ∈ ([("x", PyValue.int 1)] : FieldMap)
        ∧ (PyValue.int 1) ≠ .none)) ∧
    ((("__builtins__" : String) = "abs" ∧ PyValue.emptyDict = .builtin .abs) ∨
      (("__builtins__" : String) = "min" ∧ PyValue.emptyDict = .builtin .min) ∨
      (("__builtins__" : String) = "max" ∧ PyValue.emptyDict = .builtin .max) ∨
      (("__builtins__" : String) = "__builtins__" ∧ PyValue.emptyDict = .emptyDict) ∨
      ((("__builtins__" : String), PyValue.emptyDict) ∈ ([] : FieldMap)
        ∧ PyValue.emptyDict ≠ .none)) :=
  ⟨claim_C6 [("x", .int 1)] "x" (.int 1) (by decide),
   claim_C6 [] "__builtins__" .emptyDict (by decide)⟩

/-- C7: in the non-forced path, a structured-extractor confidence below
the threshold always invokes the Claude fallback; the Claude result
(data, confidence, field confidences) with tag CLAUDE is returned exactly
when its confidence is strictly higher, and otherwise the structured
result is returned unchanged. -/
theorem claim_C7 (docAi claude : ExtractionResult) (threshold : Rat)
    (h : docAi.confidence < threshold) :
    (extractionPhase false docAi claude threshold).2 = true
    ∧ (claude.confidence > docAi.confidence →
        (extractionPhase false docAi claude threshold).1 =
          { fields := claude.fields, confidence := claude.confidence,
            fieldConfidences := claude.fieldConfidences, processor := .CLAUDE })
    ∧ (¬ claude.confidence > docAi.confidence →
        (extractionPhase false docAi claude threshold).1 = docAi) := by
  unfold extractionPhase
  simp only [if_neg (Bool.false_ne_true), if_pos h]
  refine ⟨?_, ?_, ?_⟩
  · split <;> rfl
  · intro hgt; rw [if_pos hgt]
  · intro hle; rw [if_neg hle]

/-- C7 witness: Scenario C — structured confidence 0.60 against
threshold 0.85 invokes the fallback, and a semantic confidence of 0.92
makes the final result the semantic one with tag CLAUDE. -/
theorem claim_C7_witness :
    (extractionPhase false
      { fields := [("a", .int 1)], confidence := mkRat 60 100,
        fieldConfidences := [], processor := .DOCUMENT_AI_FORM }
      { fields := [("a", .int 2)], confidence := mkRat 92 100,
        fieldConfidences := [], processor := .CLAUDE }
      (mkRat 85 100)).2 = true
    ∧ (extractionPhase false
      { fields := [("a", .int 1)], confidence := mkRat 60 100,
        fieldConfidences := [], processor := .DOCUMENT_AI_FORM }
      { fields := [("a", .int 2)], confidence := mkRat 92 100,
        fieldConfidences := [], processor := .CLAUDE }
      (mkRat 85 100)).1 =
      { fields := [("a", .int 2)], confidence := mkRat 92 100,
        fieldConfidences := [], processor := .CLAUDE } := by
  have h := claim_C7
    { fields := [("a", .int 1)], confidence := mkRat 60 100,
      fieldConfidences := [], processor := .DOCUMENT_AI_FORM }
    { fields := [("a", .int 2)], confidence := mkRat 92 100,
      fieldConfidences := [], processor := .CLAUDE }
    (mkRat 85 100) (by decide)
  exact ⟨h.1, h.2.1 (by decide)⟩

/-- C9: when the OCR step yields an empty text, the Claude extraction
path returns (rather than raises) the empty field map with confidence
0.0, an empty per-field confidence map and the CLAUDE tag, regardless of
what the Claude call would have done. -/
theorem claim_C9 (claudeOutcome : Except String ExtractionResult) :
    processWithClaude "" claudeOutcome =
      .ok { fields := [], confidence := 0, fieldConfidences := [],
            processor := ProcessorType.CLAUDE } := by
  rfl

end CapitalSpring

namespace CapitalSpring

/-- A single-field rule whose type is not `date` ignores the clock. -/
theorem applyRule_time_indep (data : FieldMap) (r : Rule) (t t' : Int)
    (h : r.type ≠ .date) :
    applyRule data r t = applyRule data r t' := by
  obtain ⟨f, ty, mn, mx, ma, pr⟩ := r
  cases ty <;> first | rfl | exact absurd rfl h

/-- The field-rule loop ignores the clock when no rule has type `date`. -/
theorem applyFieldRules_time_indep (data : FieldMap) (t t' : Int) (rules : List Rule)
    (h : ∀ r ∈ rules, r.type ≠ .date) :
    applyFieldRules data t rules = applyFieldRules data t' rules := by
  induction rules with
  | nil => rfl
  | cons r rs ih =>
      simp only [applyFieldRules]
      rw [applyRule_time_indep data r t t' (h r (by simp)),
        ih (fun x hx => h x (by simp [hx]))]

/-- C3: when every required field of the type's catalog is present and
non-null, every single-field rule passes, and every cross-field condition
evaluates truthily, `validate` returns `is_valid = true` with an empty
error list. -/
theorem claim_C3 (data : FieldMap) (t : DocumentType) (catalog : RuleCatalog) (now : Int)
    (hcat : validationRules t = some catalog)
    (hreq : ∀ f ∈ catalog.required_fields, requiredFieldMissing data f = false)
    (hrules : ∀ r ∈ catalog.rules, applyRule data r now = Option.none)
    (hcross : ∀ r ∈ catalog.cross_field_rules, crossCondTruthy data r = true) :
    (validate data (some t) now).is_valid = true
    ∧ (validate data (some t) now).errors = [] := by
  have hreqe : requiredFieldErrors data catalog.required_fields = [] := by
    unfold requiredFieldErrors
    rw [List.filterMap_eq_nil_iff]
    intro f hf
    rw [hreq f hf]
    simp
  have hrulese : applyFieldRules data now catalog.rules = ([], []) := by
    rw [applyFieldRules_eq]
    rw [Prod.mk.injEq]
    constructor <;> (rw [List.filterMap_eq_nil_iff]; intro r hr; simp [hrules r hr])
  have hcrosse : catalog.cross_field_rules.filterMap (applyCrossFieldRule data) = [] := by
    rw [List.filterMap_eq_nil_iff]
    intro r hr
    exact applyCrossFieldRule_of_truthy (hcross r hr)
  constructor <;> simp [validate, hcat, hreqe, hrulese, hcrosse]

/-- C3 witness: a borrowing-base certificate with all required fields
present, all single-field rules passing and both cross-field conditions
true validates cleanly. -/
theorem claim_C3_witness :
    (validate [("certificate_date", .str "2025-01-15"), ("eligible_ar", .int 500),
        ("total_availability", .int 100), ("gross_accounts_receivable", .int 600),
        ("eligible_inventory", .int 10), ("ar_advance_rate", .int 80),
        ("inventory_advance_rate", .int 50)]
      (some .BORROWING_BASE) 20000).is_valid = true
    ∧ (validate [("certificate_date", .str "2025-01-15"), ("eligible_ar", .int 500),
        ("total_availability", .int 100), ("gross_accounts_receivable", .int 600),
        ("eligible_inventory", .int 10), ("ar_advance_rate", .int 80),
        ("inventory_advance_rate", .int 50)]
      (some .BORROWING_BASE) 20000).errors = [] :=
  claim_C3 [("certificate_date", .str "2025-01-15"), ("eligible_ar", .int 500),
      ("total_availability", .int 100), ("gross_accounts_receivable", .int 600),
      ("eligible_inventory", .int 10), ("ar_advance_rate", .int 80),
      ("inventory_advance_rate", .int 50)]
    .BORROWING_BASE _ 20000 rfl (by decide) (by decide) (by decide)

/-- C4: for a type with a catalog, the warning list consists exactly of
the failures of rules declared at priority LOW, the error list is the
required-field failures followed by the failures of non-LOW rules
followed by the cross-field failures, and `is_valid` holds iff the error
list (not the warning list) is empty. -/
theorem claim_C4 (data : FieldMap) (t : DocumentType) (catalog : RuleCatalog) (now : Int)
    (hcat : validationRules t = some catalog) :
    (validate data (some t) now).warnings
      = catalog.rules.filterMap
          (fun r => if r.priority = .LOW then applyRule data r now else Option.none)
    ∧ (validate data (some t) now).errors
      = requiredFieldErrors data catalog.required_fields
        ++ catalog.rules.filterMap
            (fun r => if r.priority = .LOW then Option.none else applyRule data r now)
        ++ catalog.cross_field_rules.filterMap (applyCrossFieldRule data)
    ∧ ((validate data (some t) now).is_valid = true
        ↔ (validate data (some t) now).errors = []) := by
  refine ⟨?_, ?_, ?_⟩
  · simp [validate, hcat, applyFieldRules_eq]
  · simp [validate, hcat, applyFieldRules_eq]
  · rw [validate_is_valid]
    exact List.isEmpty_iff

/-- C4 witness: a monthly-financials document whose only rule failure is
the LOW-priority `ebitda_margin` percentage rule produces exactly one
warning, no errors, and `is_valid = true`. -/
theorem claim_C4_witness :
    (validate [("period_end_date", .str "2024-01-01"), ("revenue", .int 100),
        ("ebitda_margin", .int 150)]
      (some .MONTHLY_FINANCIALS) 19733).warnings
      = [{ field := "ebitda_margin", category := .VALIDATION_ERROR, priority := .LOW,
           message := "Field \x27ebitda_margin\x27 must be between -100% and 100%",
           expected := some "-100-100", actual := some "150" }]
    ∧ (validate [("period_end_date", .str "2024-01-01"), ("revenue", .int 100),
        ("ebitda_margin", .int 150)]
      (some .MONTHLY_FINANCIALS) 19733).errors = []
    ∧ (validate [("period_end_date", .str "2024-01-01"), ("revenue", .int 100),
        ("ebitda_margin", .int 150)]
      (some .MONTHLY_FINANCIALS) 19733).is_valid = true := by
  have h := claim_C4 [("period_end_date", .str "2024-01-01"), ("revenue", .int 100),
    ("ebitda_margin", .int 150)] .MONTHLY_FINANCIALS _ 19733 rfl
  have herr : (validate [("period_end_date", .str "2024-01-01"), ("revenue", .int 100),
      ("ebitda_margin", .int 150)] (some .MONTHLY_FINANCIALS) 19733).errors = [] := by
    rw [h.2.1]; decide
  refine ⟨?_, herr, h.2.2.mpr herr⟩
  rw [h.1]; decide

/-- C8 (amended): `validate` is a deterministic function of the fields,
the document type and the evaluation-time clock; it is clock-independent
exactly on catalogs without date-typed rules — for any type whose rule
list contains no `date` rule, two calls at different times agree.  (The
original claim of full time-independence is false: date rules with
`max_age_days` read the current time, see the counterexample.) -/
theorem claim_C8 (data : FieldMap) (dt : Option DocumentType) (t t' : Int)
    (h : ∀ r ∈ catalogRules dt, r.type ≠ RuleType.date) :
    validate data dt t = validate data dt t' := by
  cases dt with
  | none => rfl
  | some ty =>
      cases hcat : validationRules ty with
      | none => simp [validate, hcat]
      | some catalog =>
          have hr : ∀ r ∈ catalog.rules, r.type ≠ RuleType.date := by
            intro r hrm
            exact h r (by simp [catalogRules, hcat, hrm])
          simp [validate, hcat, applyFieldRules_time_indep data t t' catalog.rules hr]

/-- C8 counterexample: `validate` is not a pure function of `(fields,
documentType)` alone — the monthly-financials date rule with
`max_age_days = 180` accepts `period_end_date = "2024-01-01"` ten days
after that date and rejects it two hundred days after, so the same
inputs give different results at different times. -/
theorem claim_C8_counterexample :
    ¬ (∀ (data : FieldMap) (dt : Option DocumentType) (t t' : Int),
        validate data dt t = validate data dt t') := by
  intro hclaim
  have h := hclaim [("period_end_date", .str "2024-01-01"), ("revenue", .int 100)]
    (some .MONTHLY_FINANCIALS) 19733 19923
  exact absurd h (by decide)

/-- C8 witness: the borrowing-base catalog has no date-typed rule, so
its validation results agree across times 0 and 1000000. -/
theorem claim_C8_witness :
    validate [("certificate_date", .str "2025-01-15"), ("eligible_ar", .int 500),
        ("total_availability", .int 100)] (some .BORROWING_BASE) 0
      = validate [("certificate_date", .str "2025-01-15"), ("eligible_ar", .int 500),
        ("total_availability", .int 100)] (some .BORROWING_BASE) 1000000 :=
  claim_C8 [("certificate_date", .str "2025-01-15"), ("eligible_ar", .int 500),
    ("total_availability", .int 100)] (some .BORROWING_BASE) 0 1000000 (by decide)

end CapitalSpring

namespace CapitalSpring

/-- C2: when validation produced at least one error the outcome is
NEEDS_REVIEW with exactly one exception per validation error (category,
priority, field name, expected and actual copied from the error) and no
`low_confidence` exception among them, regardless of the confidence;
the single `low_confidence` exception with priority MEDIUM is created
only when validation produced no errors and the confidence is below the
threshold. -/
theorem claim_C2 (data : FieldMap) (dt : Option DocumentType) (now : Int)
    (confidence threshold : Rat) :
    ((validate data dt now).errors ≠ [] →
      decideOutcome (validate data dt now) confidence threshold
        = (.NEEDS_REVIEW, true, (validate data dt now).errors.map mkExcFromError)
      ∧ (∀ exc ∈ (validate data dt now).errors.map mkExcFromError,
          exc.category ≠ ExceptionCategory.LOW_CONFIDENCE.value))
    ∧ ((validate data dt now).errors = [] → confidence < threshold →
      decideOutcome (validate data dt now) confidence threshold
        = (.NEEDS_REVIEW, true, [lowConfExc confidence threshold])
      ∧ (lowConfExc confidence threshold).category = ExceptionCategory.LOW_CONFIDENCE.value
      ∧ (lowConfExc confidence threshold).priority = ExceptionPriority.MEDIUM.value) := by
  constructor
  · intro hne
    have hiv : (validate data dt now).is_valid = false := by
      rw [validate_is_valid]
      simpa using hne
    constructor
    · simp [decideOutcome, hiv]
    · intro exc hexc
      rw [List.mem_map] at hexc
      obtain ⟨e, he, rfl⟩ := hexc
      rcases validate_errors_cases he with h1 | h1 | ⟨r, hr⟩ | ⟨r, hr⟩
      · simp [mkExcFromError, h1, ExceptionCategory.value]
      · simp [mkExcFromError, h1, ExceptionCategory.value]
      · rcases applyRule_category hr with h1 | h1 <;>
          simp [mkExcFromError, h1, ExceptionCategory.value]
      · have he2 := applyCrossFieldRule_some hr
        subst he2
        simp [mkExcFromError, ExceptionCategory.value]
  · intro hnil hconf
    have hiv : (validate data dt now).is_valid = true := by
      rw [validate_is_valid, hnil]
      rfl
    refine ⟨?_, rfl, rfl⟩
    simp [decideOutcome, hiv, hconf]

/-- C2 witness: empty borrowing-base fields give three missing-field
errors and an exception per error even at high confidence; clean fields
at confidence 0.60 against threshold 0.85 give exactly the single
low-confidence exception. -/
theorem claim_C2_witness :
    decideOutcome (validate [] (some .BORROWING_BASE) 0) (mkRat 90 100) (mkRat 85 100)
      = (.NEEDS_REVIEW, true, (validate [] (some .BORROWING_BASE) 0).errors.map mkExcFromError)
    ∧ decideOutcome
        (validate [("certificate_date", .str "2025-01-15"), ("eligible_ar", .int 500),
          ("total_availability", .int 100)] (some .BORROWING_BASE) 0)
        (mkRat 60 100) (mkRat 85 100)
      = (.NEEDS_REVIEW, true, [lowConfExc (mkRat 60 100) (mkRat 85 100)]) := by
  constructor
  · exact ((claim_C2 [] (some .BORROWING_BASE) 0 (mkRat 90 100) (mkRat 85 100)).1
      (by decide)).1
  · exact ((claim_C2 [("certificate_date", .str "2025-01-15"), ("eligible_ar", .int 500),
      ("total_availability", .int 100)] (some .BORROWING_BASE) 0
      (mkRat 60 100) (mkRat 85 100)).2 (by decide) (by decide)).1

/-- C10: every cross-field error in a validation result carries the
sentinel field name `_cross_field` and null expected/actual values, and
the exception record materialized from it therefore has field name
`_cross_field` and no expected or actual value. -/
theorem claim_C10 (data : FieldMap) (dt : Option DocumentType) (now : Int)
    (e : ValidationError) (hmem : e ∈ (validate data dt now).errors)
    (hcat : e.category = .CROSS_FIELD) :
    e.field = "_cross_field" ∧ e.expected = Option.none ∧ e.actual = Option.none
    ∧ (mkExcFromError e).fieldName = some "_cross_field"
    ∧ (mkExcFromError e).expectedValue = Option.none
    ∧ (mkExcFromError e).actualValue = Option.none := by
  rcases validate_errors_cases hmem with h1 | h1 | ⟨r, hr⟩ | ⟨r, hr⟩
  · rw [hcat] at h1; cases h1
  · rw [hcat] at h1; cases h1
  · rcases applyRule_category hr with h1 | h1 <;> (rw [hcat] at h1; cases h1)
  · have he := applyCrossFieldRule_some hr
    subst he
    exact ⟨rfl, rfl, rfl, rfl, rfl, rfl⟩

/-- C10 witness: the Scenario E borrowing-base document produces a
cross-field error in its validation result, and that error (and hence
its materialized exception) carries the sentinel field and no
expected/actual values. -/
theorem claim_C10_witness :
    ({ field := "_cross_field", category := .CROSS_FIELD, priority := .HIGH,
          message := "Eligible AR cannot exceed gross AR" } : ValidationError).field
        = "_cross_field"
    ∧ ({ field := "_cross_field", category := .CROSS_FIELD, priority := .HIGH,
          message := "Eligible AR cannot exceed gross AR" } : ValidationError).expected
        = Option.none
    ∧ ({ field := "_cross_field", category := .CROSS_FIELD, priority := .HIGH,
          message := "Eligible AR cannot exceed gross AR" } : ValidationError).actual
        = Option.none
    ∧ (mkExcFromError
        { field := "_cross_field", category := .CROSS_FIELD, priority := .HIGH,
          message := "Eligible AR cannot exceed gross AR" }).fieldName = some "_cross_field"
    ∧ (mkExcFromError
        { field := "_cross_field", category := .CROSS_FIELD, priority := .HIGH,
          message := "Eligible AR cannot exceed gross AR" }).expectedValue = Option.none
    ∧ (mkExcFromError
        { field := "_cross_field", category := .CROSS_FIELD, priority := .HIGH,
          message := "Eligible AR cannot exceed gross AR" }).actualValue = Option.none :=
  claim_C10 [("eligible_ar", .int 500), ("gross_accounts_receivable", .int 400)]
    (some .BORROWING_BASE) 0
    { field := "_cross_field", category := .CROSS_FIELD, priority := .HIGH,
      message := "Eligible AR cannot exceed gross AR" }
    (by decide) (by decide)

end CapitalSpring
